import Mathlib

/-!
Verification of the crawl-and-extract pipeline of the real-estate scraper
(src/service_modules/scraper.py and src/service_modules/db_connection.py).

The network, HTML-parsing and JSON-parsing libraries (aiohttp, BeautifulSoup,
json) are external collaborators; their outcomes are modelled as explicit
inputs (a trace of attempt outcomes for the network, the parsed shape of a
page for the parsers).  Everything the repository code itself does — control
flow, retry policy, exception handling, batching arithmetic, JSON navigation,
SQL table lifecycle — is translated directly from the source.
-/

namespace Scraper

/-! ## PageFetcher: fetch_response (scraper.py lines 22-50)

One network attempt either yields an HTTP response (status plus a body; the
body is recorded as none when reading it raises aiohttp.ClientPayloadError)
or fails with aiohttp.ClientConnectionError / asyncio.TimeoutError.  A call
to fetch_response consumes one attempt per request it issues; the trace lists
the successive outcomes the upstream produces.  The return type is
Option (Option String): the outer none means the call never returns within
the given trace (the recursion consumed every attempt and is still retrying),
some r means the Python function returns r (r = none is the Python None). -/

inductive Attempt where
  | resp (status : Nat) (body : Option String)
  | connError
deriving DecidableEq, Repr

/-- Translation of fetch_response.  Status 200 returns the body (or None if
reading it raised ClientPayloadError); status 502/503/504 sleeps and recurses
on the rest of the trace, returning the recursive result; any other status
returns None at once.  On a connection error or timeout the code sleeps and
recurses, but discards the recursive result and falls through, so the caller
receives None whenever that inner retry terminates at all. -/
def fetch_response : List Attempt → Option (Option String)
  | [] => none
  | Attempt.resp status body :: rest =>
      if status = 200 then
        match body with
        | some b => some (some b)
        | none => some none
      else if status = 502 ∨ status = 503 ∨ status = 504 then
        fetch_response rest
      else
        some none
  | Attempt.connError :: rest =>
      match fetch_response rest with
      | none => none
      | some _ => some none

/-- C3: fetch returns the body unchanged on a first-attempt 200; returns the
eventual body when one or more 503 responses are followed by a 200; and for
any other non-200, non-transient status (such as 404) returns None at once,
consuming no further attempt of the trace (no retry). -/
theorem c3_fetch_status_policy (b : String) (k : Nat) (body : Option String)
    (s : Nat) (rest : List Attempt)
    (h200 : s ≠ 200) (h502 : s ≠ 502) (h503 : s ≠ 503) (h504 : s ≠ 504) :
    fetch_response [Attempt.resp 200 (some b)] = some (some b) ∧
    fetch_response
        (List.replicate (k + 1) (Attempt.resp 503 body) ++
          [Attempt.resp 200 (some b)]) = some (some b) ∧
    fetch_response (Attempt.resp s body :: rest) = some none := by
  refine ⟨rfl, ?_, ?_⟩
  · induction k with
    | zero => simp [fetch_response]
    | succ n ih =>
        simpa [List.replicate_succ, fetch_response] using ih
  · have : ¬(s = 502 ∨ s = 503 ∨ s = 504) := by
      intro hc
      rcases hc with h | h | h
      · exact h502 h
      · exact h503 h
      · exact h504 h
    simp [fetch_response, h200, this]

/-- Witness for c3_fetch_status_policy at s = 404 and a two-attempt 503 run. -/
theorem c3_fetch_status_policy_witness :
    (404 ≠ 200) ∧
    (fetch_response [Attempt.resp 200 (some "body")] = some (some "body") ∧
     fetch_response
        (List.replicate 2 (Attempt.resp 503 none) ++
          [Attempt.resp 200 (some "body")]) = some (some "body") ∧
     fetch_response (Attempt.resp 404 none :: [Attempt.resp 200 (some "x")]) =
       some none) :=
  ⟨by decide,
   c3_fetch_status_policy "body" 1 none 404 [Attempt.resp 200 (some "x")]
     (by decide) (by decide) (by decide) (by decide)⟩

/-- C5: against an upstream that answers 502, 503 or 504 on every attempt,
fetch_response consumes the whole trace and never produces a result, however
long the trace is: the retry recursion on the transient-status path is
unbounded. -/
theorem c5_transient_retry_unbounded (trace : List Attempt)
    (h : ∀ a ∈ trace, ∃ st body, a = Attempt.resp st body ∧
           (st = 502 ∨ st = 503 ∨ st = 504)) :
    fetch_response trace = none := by
  induction trace with
  | nil => rfl
  | cons a rest ih =>
      obtain ⟨st, body, ha, hst⟩ := h a (List.mem_cons_self a rest)
      subst ha
      have h200 : st ≠ 200 := by
        rcases hst with h | h | h <;> simp [h]
      have hrest := ih (fun x hx => h x (List.mem_cons_of_mem _ hx))
      simp [fetch_response, h200, hst, hrest]

/-- Witness for c5_transient_retry_unbounded on a three-attempt 503 trace. -/
theorem c5_transient_retry_unbounded_witness :
    fetch_response (List.replicate 3 (Attempt.resp 503 none)) = none :=
  c5_transient_retry_unbounded (List.replicate 3 (Attempt.resp 503 none))
    (by
      intro a ha
      rw [List.mem_replicate] at ha
      exact ⟨503, none, ha.2, Or.inr (Or.inl rfl)⟩)

/-- C4 failing input: the first attempt fails with a connection error and the
retried request succeeds with status 200 and body "ok", yet the caller
receives None — the retry at scraper.py line 50 is awaited but its result is
discarded, so the function falls through and returns None. -/
theorem c4_retry_result_discarded :
    fetch_response [Attempt.connError, Attempt.resp 200 (some "ok")] =
      some none ∧
    fetch_response [Attempt.connError, Attempt.resp 200 (some "ok")] ≠
      some (some "ok") := by
  refine ⟨rfl, ?_⟩
  intro h
  simp [fetch_response] at h

/-! ## DetailExtractor: get_single_apartment_data (scraper.py lines 129-163)

The Python function parses the page with BeautifulSoup, locates a script
whose text matches the INITIAL_DATA marker, slices off the 26-character
variable-name part, feeds the rest to json.loads, and navigates the
resulting nested dictionaries.  The whole body sits in a try whose except
clause catches exactly (KeyError, TypeError).  We embed the JSON values the
navigation walks over, the Python exceptions that can arise, and the shape
of the page as the extraction code observes it. -/

/-- Python exceptions relevant to the extraction and storage code paths. -/
inductive PyError where
  | keyError
  | typeError
  | attributeError
  | indexError
  | valueError
  | operationalError
deriving DecidableEq, Repr

/-- JSON values as produced by json.loads; numbers are kept exact as
rationals since the code never computes with them, only passes them on. -/
inductive Json where
  | null
  | bool (b : Bool)
  | num (q : ℚ)
  | str (s : String)
  | arr (xs : List Json)
  | obj (kvs : List (String × Json))

/-- Python subscripting v[k] with a string key: a dict either has the key or
raises KeyError; subscripting any non-dict value with a string raises
TypeError (including None, numbers, strings, booleans and lists). -/
def getItem : Json → String → Except PyError Json
  | Json.obj kvs, k =>
      match kvs.lookup k with
      | some v => Except.ok v
      | none => Except.error PyError.keyError
  | _, _ => Except.error PyError.typeError

/-- Helper for pySplit: walk the characters, accumulating the current token
in reverse; a whitespace character closes the current token (if any), and the
end of the input flushes the last token. -/
def pySplitAux : List Char → List Char → List String
  | [], acc => if acc = [] then [] else [String.mk acc.reverse]
  | c :: cs, acc =>
      if c.isWhitespace then
        if acc = [] then pySplitAux cs []
        else String.mk acc.reverse :: pySplitAux cs []
      else pySplitAux cs (c :: acc)

/-- Python str.split() without arguments: split on runs of whitespace,
dropping empty tokens. -/
def pySplit (s : String) : List String :=
  pySplitAux s.data []

/-- The detail page as the extraction code observes it through BeautifulSoup
and json.loads: either no script element matches the INITIAL_DATA marker
(soup.find returns None), or the matching script has no string content
(.string is None), or it has content whose part after the 26-character
prefix json.loads either parses to a value or rejects as malformed (none). -/
inductive DetailPage where
  | absent
  | noString
  | content (parsed : Option Json)

/-- The body of the try block of get_single_apartment_data, line by line:
select the district key by city, locate the script (an absent script makes
the subsequent .string attribute access raise AttributeError; a None string
sliced by [26:] raises TypeError; malformed JSON makes json.loads raise
ValueError), then navigate itemState.item and the six fields.  The district
label must be a string (otherwise .split() raises AttributeError) with at
least one whitespace-delimited token (otherwise [0] raises IndexError); the
five remaining fields are returned exactly as found, with no type check. -/
def scrape_try (city : String) (page : DetailPage) :
    Except PyError (String × Json × Json × Json × Json × Json) := do
  let district := if city = "ekaterinburg" then "district" else "adminDistrict"
  match page with
  | DetailPage.absent => Except.error PyError.attributeError
  | DetailPage.noString => Except.error PyError.typeError
  | DetailPage.content none => Except.error PyError.valueError
  | DetailPage.content (some json) =>
      let itemState ← getItem json "itemState"
      let info ← getItem itemState "item"
      let districtObj ← getItem info district
      let nameVal ← getItem districtObj "name"
      let nameStr ← match nameVal with
        | Json.str s => Except.ok s
        | _ => Except.error PyError.attributeError
      let admin_district ← match pySplit nameStr with
        | t :: _ => Except.ok t
        | [] => Except.error PyError.indexError
      let location ← getItem info "location"
      let location_longitude ← getItem location "longitude"
      let location_latitude ← getItem location "latitude"
      let area ← getItem info "floorAreaCalculated"
      let price ← getItem info "priceValue"
      let price_meter ← getItem info "pricePerAreaValue"
      Except.ok (admin_district, location_longitude, location_latitude,
        area, price, price_meter)

/-- Translation of get_single_apartment_data: run the try body; a KeyError
or TypeError is caught and turned into the Python return value None; any
other exception propagates to the caller. -/
def get_single_apartment_data (city : String) (page : DetailPage) :
    Except PyError (Option (String × Json × Json × Json × Json × Json)) :=
  match scrape_try city page with
  | Except.ok t => Except.ok (some t)
  | Except.error PyError.keyError => Except.ok none
  | Except.error PyError.typeError => Except.ok none
  | Except.error e => Except.error e

/-- The district key the source selects for a city (scraper.py line 141). -/
def districtKey (city : String) : String :=
  if city = "ekaterinburg" then "district" else "adminDistrict"

/-- A complete, well-typed detail payload carrying the six required fields,
with the district information stored under the given key. -/
def mkPayload (key : String) (label : String)
    (lon lat area price pm : ℚ) : Json :=
  Json.obj [("itemState", Json.obj [("item", Json.obj
    [(key, Json.obj [("name", Json.str label)]),
     ("location", Json.obj [("longitude", Json.num lon),
                            ("latitude", Json.num lat)]),
     ("floorAreaCalculated", Json.num area),
     ("priceValue", Json.num price),
     ("pricePerAreaValue", Json.num pm)])])]

/-- C2 counterexample: on a detail page whose embedded JSON is malformed,
get_single_apartment_data does not return None — json.loads raises
ValueError, which the except (KeyError, TypeError) clause does not catch, so
the exception propagates past this boundary. -/
theorem c2_malformed_json_raises :
    get_single_apartment_data "moscow" (DetailPage.content none) =
      Except.error PyError.valueError ∧
    get_single_apartment_data "moscow" (DetailPage.content none) ≠
      Except.ok none := by
  refine ⟨rfl, ?_⟩
  intro h
  simp [get_single_apartment_data, scrape_try] at h

/-- C2 amended: extraction failures detected as KeyError or TypeError
(missing required key, subscripting a non-dict value, a script whose text is
None) yield None for the whole record, and a returned record is always the
full six-field tuple produced by a fully successful navigation — no partial
record is ever constructed.  However, absent script markup raises
AttributeError and malformed embedded JSON raises ValueError, and these
exceptions propagate past this boundary instead of yielding None. -/
theorem c2_extraction_failure_policy (city : String) (page : DetailPage) :
    (∀ t, get_single_apartment_data city page = Except.ok (some t) →
       scrape_try city page = Except.ok t) ∧
    (scrape_try city page = Except.error PyError.keyError ∨
       scrape_try city page = Except.error PyError.typeError →
       get_single_apartment_data city page = Except.ok none) ∧
    (page = DetailPage.absent →
       get_single_apartment_data city page =
         Except.error PyError.attributeError) ∧
    (page = DetailPage.content none →
       get_single_apartment_data city page =
         Except.error PyError.valueError) ∧
    (page = DetailPage.noString →
       get_single_apartment_data city page = Except.ok none) := by
  refine ⟨?_, ?_, ?_, ?_, ?_⟩
  · intro t ht
    unfold get_single_apartment_data at ht
    rcases hs : scrape_try city page with e | v
    · rcases e <;> simp [hs] at ht
    · simp [hs] at ht
      simp [ht]
  · intro hor
    rcases hor with h | h <;> simp [get_single_apartment_data, h]
  · intro hp
    subst hp
    simp [get_single_apartment_data, scrape_try]
  · intro hp
    subst hp
    simp [get_single_apartment_data, scrape_try]
  · intro hp
    subst hp
    simp [get_single_apartment_data, scrape_try]

/-- Witness for c2_extraction_failure_policy: at the concrete input
(moscow, absent script markup) the amended claim gives the propagating
AttributeError. -/
theorem c2_extraction_failure_policy_witness :
    get_single_apartment_data "moscow" DetailPage.absent =
      Except.error PyError.attributeError :=
  (c2_extraction_failure_policy "moscow" DetailPage.absent).2.2.1 rfl

/-- C6: on a complete, well-typed payload whose district key is the one the
code selects for the given city, the extractor returns exactly the six input
values, the district being the first whitespace token of the label; and the
key is selected by city identity: an ekaterinburg page keyed adminDistrict,
or a non-ekaterinburg page keyed district, yields None (KeyError caught). -/
theorem c6_complete_payload_exact (city label t : String) (ts : List String)
    (lon lat area price pm : ℚ) (hsplit : pySplit label = t :: ts) :
    get_single_apartment_data city
        (DetailPage.content
          (some (mkPayload (districtKey city) label lon lat area price pm))) =
      Except.ok (some (t, Json.num lon, Json.num lat, Json.num area,
        Json.num price, Json.num pm)) ∧
    (city = "ekaterinburg" →
      get_single_apartment_data city
          (DetailPage.content
            (some (mkPayload "adminDistrict" label lon lat area price pm))) =
        Except.ok none) ∧
    (city ≠ "ekaterinburg" →
      get_single_apartment_data city
          (DetailPage.content
            (some (mkPayload "district" label lon lat area price pm))) =
        Except.ok none) := by
  by_cases hc : city = "ekaterinburg"
  · refine ⟨?_, fun _ => ?_, fun hne => absurd hc hne⟩
    · simp [get_single_apartment_data, scrape_try, mkPayload, districtKey,
        getItem, hc, List.lookup, hsplit, Bind.bind, Except.bind]
    · simp [get_single_apartment_data, scrape_try, mkPayload, districtKey,
        getItem, hc, List.lookup, hsplit, Bind.bind, Except.bind]
  · refine ⟨?_, fun heq => absurd heq hc, fun _ => ?_⟩
    · simp [get_single_apartment_data, scrape_try, mkPayload, districtKey,
        getItem, hc, List.lookup, hsplit, Bind.bind, Except.bind]
    · simp [get_single_apartment_data, scrape_try, mkPayload, districtKey,
        getItem, hc, List.lookup, hsplit, Bind.bind, Except.bind]

/-- Witness for c6_complete_payload_exact at a concrete moscow payload with
district label "Arbat district", for which the first token is "Arbat". -/
theorem c6_complete_payload_exact_witness :
    pySplit "Arbat district" = ["Arbat", "district"] ∧
    get_single_apartment_data "moscow"
        (DetailPage.content
          (some (mkPayload (districtKey "moscow") "Arbat district"
            37 55 42 9000000 214285))) =
      Except.ok (some ("Arbat", Json.num 37, Json.num 55, Json.num 42,
        Json.num 9000000, Json.num 214285)) :=
  ⟨by decide,
   (c6_complete_payload_exact "moscow" "Arbat district" "Arbat" ["district"]
     37 55 42 9000000 214285 (by decide)).1⟩

/-! ## ListingURLExtractor: get_apartment_urls_from_single_page
(scraper.py lines 91-107)

BeautifulSoup parsing is external; the function is driven entirely by the
anchor elements found inside the listings container div of the search page,
so the embedded input is that list of anchors, each carrying its href
attribute value. -/

/-- An anchor element inside the listings container, with its href value. -/
structure ListingAnchor where
  href : String

/-- Translation of get_apartment_urls_from_single_page: prefix every
anchor href of the listings container with the homepage URL.  A pure
function of its inputs; no network or state access. -/
def get_apartment_urls_from_single_page (homepage : String)
    (anchors : List ListingAnchor) : List String :=
  anchors.map (fun row => homepage ++ row.href)

/-- C9: on a search page whose listings container holds N anchors the
extractor returns exactly N URLs, and the i-th URL is the homepage
concatenated with the i-th anchor href. -/
theorem c9_listing_urls (homepage : String) (anchors : List ListingAnchor) :
    (get_apartment_urls_from_single_page homepage anchors).length =
      anchors.length ∧
    ∀ i, i < anchors.length →
      (get_apartment_urls_from_single_page homepage anchors)[i]? =
        some (homepage ++ (anchors[i]?.map ListingAnchor.href).getD "") := by
  constructor
  · simp [get_apartment_urls_from_single_page]
  · intro i hi
    rcases ha : anchors[i]? with _ | a
    · rw [List.getElem?_eq_none_iff] at ha
      omega
    · simp [get_apartment_urls_from_single_page, List.getElem?_map, ha]

/-- Witness for c9_listing_urls at a two-anchor page, index 1. -/
theorem c9_listing_urls_witness :
    (1 < 2) ∧
    (get_apartment_urls_from_single_page "https://www.domofond.ru"
        [⟨"/a"⟩, ⟨"/b"⟩])[1]? =
      some ("https://www.domofond.ru" ++
        (([⟨"/a"⟩, ⟨"/b"⟩] : List ListingAnchor)[1]?.map
          ListingAnchor.href).getD "") :=
  ⟨by decide,
   (c9_listing_urls "https://www.domofond.ru" [⟨"/a"⟩, ⟨"/b"⟩]).2 1
     (by decide)⟩

/-! ## Concurrent fetch phase: get_multiple_pages_content
(scraper.py lines 53-71)

The gather step resolves every task to an Optional[str]; the function then
returns filter(lambda x: x, results), keeping exactly the truthy results:
None and the empty string are both falsy in Python and are dropped. -/

/-- Python truthiness of an Optional[str] value: None and the empty string
are falsy, every non-empty string is truthy. -/
def truthy : Option String → Bool
  | none => false
  | some s => decide (s ≠ "")

/-- Translation of the result stage of get_multiple_pages_content: keep the
truthy task results; the survivors are all non-empty strings and are
returned as the page bodies. -/
def get_multiple_pages_content (results : List (Option String)) :
    List String :=
  (results.filter truthy).filterMap id

/-- C10: the output of the gather-and-filter phase is exactly the non-empty
page bodies, in order; a task that resolved to None and a task that
succeeded with an empty-string body are both dropped, leaving outputs that
are indistinguishable. -/
theorem c10_truthy_filter (results l1 l2 : List (Option String)) :
    get_multiple_pages_content results =
      (results.filterMap id).filter (fun s => decide (s ≠ "")) ∧
    get_multiple_pages_content (l1 ++ none :: l2) =
      get_multiple_pages_content (l1 ++ l2) ∧
    get_multiple_pages_content (l1 ++ some "" :: l2) =
      get_multiple_pages_content (l1 ++ l2) := by
  refine ⟨?_, ?_, ?_⟩
  · induction results with
    | nil => rfl
    | cons x xs ih =>
        rcases x with _ | s
        · simpa [get_multiple_pages_content, truthy] using ih
        · by_cases hs : s = ""
          · subst hs
            simpa [get_multiple_pages_content, truthy] using ih
          · simpa [get_multiple_pages_content, truthy, hs] using ih
  · simp [get_multiple_pages_content, truthy]
  · simp [get_multiple_pages_content, truthy]

/-! ## BatchOrchestrator: scrape_and_save (scraper.py lines 214-263) and the
storage statements it executes (db_connection.py lines 44-72)

The run takes the discovered last page number, the initial state of the
storage table for the city (none when the table does not exist) and, in
place of the network-and-extraction pipeline get_all_necessary_data, a
function giving the rows obtained for a batch of pages.  The while loop is
embedded with an explicit fuel argument that starts at the page-list length;
every iteration with a non-empty page list consumes at least one page, so
the length is always enough fuel and the zero-fuel branch repeats the
empty-list branch only to make the recursion structural. -/

/-- The six-field row produced by the extractor and inserted by the run. -/
abbrev ApartmentTuple := String × Json × Json × Json × Json × Json

/-- The batch size set at scraper.py line 241. -/
def n_pages_by_iteration : Nat := 40

/-- Effect of the statement DROP TABLE city (scraper.py line 248): sqlite
raises OperationalError when the table does not exist, otherwise the table
and its rows are removed. -/
def drop_table_sql (table : Option (List ApartmentTuple)) :
    Except PyError (Option (List ApartmentTuple)) :=
  match table with
  | none => Except.error PyError.operationalError
  | some _ => Except.ok none

/-- Effect of the statement returned by create_db_table (db_connection.py
lines 44-60), CREATE TABLE IF NOT EXISTS: an absent table becomes a fresh
empty one, an existing table is left untouched. -/
def create_db_table (table : Option (List ApartmentTuple)) :
    Option (List ApartmentTuple) :=
  match table with
  | some rows => some rows
  | none => some []

/-- Effect of the statement returned by insert_rows (db_connection.py lines
63-72): append one row to the table. -/
def insert_rows (table : List ApartmentTuple) (row : ApartmentTuple) :
    List ApartmentTuple :=
  table ++ [row]

/-- The page batches the while loop works through: take the first
n_pages_by_iteration pages, recurse on the rest until no pages are left. -/
def batch_loop_fuel : Nat → List Nat → List (List Nat)
  | _, [] => []
  | 0, _ :: _ => []
  | fuel + 1, p :: ps =>
      (p :: ps).take n_pages_by_iteration ::
        batch_loop_fuel fuel ((p :: ps).drop n_pages_by_iteration)

/-- The batches of a page list, with the always-sufficient fuel. -/
def batch_loop (pages : List Nat) : List (List Nat) :=
  batch_loop_fuel pages.length pages

/-- One run of the while loop of scrape_and_save (scraper.py lines 252-262):
returns the final table contents, the progress values printed after each
batch, and the page batches processed, in order.  Each iteration slices the
next batch, inserts the rows the pipeline yields for it, adds the
once-computed percent to the running progress, and drops the batch from the
page list. -/
def scrape_loop_fuel (data : List Nat → List ApartmentTuple) (percent : ℚ) :
    Nat → List Nat → List ApartmentTuple → ℚ →
      List ApartmentTuple × List ℚ × List (List Nat)
  | _, [], table, _ => (table, [], [])
  | 0, _ :: _, table, _ => (table, [], [])
  | fuel + 1, p :: ps, table, progress =>
      let next_pages := (p :: ps).take n_pages_by_iteration
      let table2 := (data next_pages).foldl insert_rows table
      let progress2 := progress + percent
      let rest := scrape_loop_fuel data percent fuel
        ((p :: ps).drop n_pages_by_iteration) table2 progress2
      (rest.1, progress2 :: rest.2.1, next_pages :: rest.2.2)

/-- The run state and outputs of scrape_and_save after its loop finishes. -/
structure RunResult where
  table : Option (List ApartmentTuple)
  reports : List ℚ
  batches : List (List Nat)

/-- Translation of scrape_and_save, from the discovered last page on: build
the page range range(1, last_page + 1), set the batch size and the percent
increment n_pages_by_iteration / last_page * 100 once, execute DROP TABLE
(fatal OperationalError when the table is missing, before anything is
written) then CREATE TABLE, and run the batch loop on an empty table. -/
def scrape_and_save (last_page : Nat)
    (initial_table : Option (List ApartmentTuple))
    (data : List Nat → List ApartmentTuple) : Except PyError RunResult :=
  let all_search_pages := List.range' 1 last_page
  let percent := (n_pages_by_iteration : ℚ) / (last_page : ℚ) * 100
  match drop_table_sql initial_table with
  | Except.error e => Except.error e
  | Except.ok dropped =>
      let created := create_db_table dropped
      let out := scrape_loop_fuel data percent all_search_pages.length
        all_search_pages (created.getD []) 0
      Except.ok ⟨some out.1, out.2.1, out.2.2⟩

/-- Inserting a list of rows one by one appends the list. -/
theorem foldl_insert_rows (rows table : List ApartmentTuple) :
    rows.foldl insert_rows table = table ++ rows := by
  induction rows generalizing table with
  | nil => simp
  | cons r rs ih => simp [insert_rows, ih]

/-- With enough fuel, the concatenation of the batches is the page list. -/
theorem batch_loop_fuel_join (fuel : Nat) (pages : List Nat)
    (h : pages.length ≤ fuel) :
    (batch_loop_fuel fuel pages).flatten = pages := by
  induction fuel generalizing pages with
  | zero =>
      have : pages = [] := List.length_eq_zero.mp (Nat.le_zero.mp h)
      subst this
      rfl
  | succ f ih =>
      rcases pages with _ | ⟨p, ps⟩
      · rfl
      · have hlen : ((p :: ps).drop n_pages_by_iteration).length ≤ f := by
          simp only [List.length_drop, List.length_cons, n_pages_by_iteration] at *
          omega
        simp [batch_loop_fuel, ih _ hlen]

/-- With enough fuel, every batch has at most n_pages_by_iteration pages
and none is empty. -/
theorem batch_loop_fuel_mem (fuel : Nat) (pages : List Nat)
    (h : pages.length ≤ fuel) :
    ∀ b ∈ batch_loop_fuel fuel pages,
      b.length ≤ n_pages_by_iteration ∧ b ≠ [] := by
  induction fuel generalizing pages with
  | zero =>
      have : pages = [] := List.length_eq_zero.mp (Nat.le_zero.mp h)
      subst this
      intro b hb
      simp [batch_loop_fuel] at hb
  | succ f ih =>
      rcases pages with _ | ⟨p, ps⟩
      · intro b hb
        simp [batch_loop_fuel] at hb
      · intro b hb
        have hlen : ((p :: ps).drop n_pages_by_iteration).length ≤ f := by
          simp only [List.length_drop, List.length_cons, n_pages_by_iteration] at *
          omega
        rcases List.mem_cons.mp hb with hb | hb
        · subst hb
          constructor
          · simp [List.length_take_le]
          · simp [n_pages_by_iteration]
        · exact ih _ hlen b hb

/-- With enough fuel, the loop appends exactly the rows of every batch to
the table, and reports after the k-th batch the starting progress plus
(k + 1) times the percent increment. -/
theorem scrape_loop_fuel_eq (data : List Nat → List ApartmentTuple)
    (percent : ℚ) (fuel : Nat) (pages : List Nat)
    (table : List ApartmentTuple) (progress : ℚ)
    (h : pages.length ≤ fuel) :
    scrape_loop_fuel data percent fuel pages table progress =
      (table ++ ((batch_loop_fuel fuel pages).map data).flatten,
       (List.range (batch_loop_fuel fuel pages).length).map
         (fun k : Nat => progress + ((k : ℚ) + 1) * percent),
       batch_loop_fuel fuel pages) := by
  induction fuel generalizing pages table progress with
  | zero =>
      have : pages = [] := List.length_eq_zero.mp (Nat.le_zero.mp h)
      subst this
      simp [scrape_loop_fuel, batch_loop_fuel]
  | succ f ih =>
      rcases pages with _ | ⟨p, ps⟩
      · simp [scrape_loop_fuel, batch_loop_fuel]
      · have hlen : ((p :: ps).drop n_pages_by_iteration).length ≤ f := by
          simp only [List.length_drop, List.length_cons, n_pages_by_iteration] at *
          omega
        simp only [scrape_loop_fuel, batch_loop_fuel, ih _ _ _ hlen,
          foldl_insert_rows, List.length_cons]
        refine congrArg₂ Prod.mk ?_ (congrArg₂ Prod.mk ?_ rfl)
        · simp [List.append_assoc]
        · rw [List.range_succ_eq_map, List.map_cons, List.map_map]
          refine congrArg₂ List.cons ?_ ?_
          · push_cast
            ring
          · refine List.map_congr_left ?_
            intro k _
            simp only [Function.comp_apply]
            push_cast
            ring

/-- A run on an existing table always succeeds, with the table rebuilt from
scratch out of exactly the batch data, the reports increasing by the fixed
percent per batch, and the batches given by the batch loop. -/
theorem scrape_and_save_ok (last_page : Nat) (prior : List ApartmentTuple)
    (data : List Nat → List ApartmentTuple) :
    scrape_and_save last_page (some prior) data =
      Except.ok
        ⟨some (((batch_loop (List.range' 1 last_page)).map data).flatten),
         (List.range (batch_loop (List.range' 1 last_page)).length).map
           (fun k : Nat => ((k : ℚ) + 1) *
             ((n_pages_by_iteration : ℚ) / (last_page : ℚ) * 100)),
         batch_loop (List.range' 1 last_page)⟩ := by
  unfold scrape_and_save drop_table_sql create_db_table batch_loop
  simp only [Option.getD_some,
    scrape_loop_fuel_eq _ _ _ _ _ _ (le_refl (List.range' 1 last_page).length)]
  simp [zero_add]

/-- C1: for every lastPage at least 1, the run on the page range
range(1, lastPage + 1) processes batches, in order, whose concatenation is
exactly the full page list 1, 2, ..., lastPage — each page once, no gaps, no
overlaps — and every batch is non-empty with at most 40 pages. -/
theorem c1_batch_partition (last_page : Nat) (hpos : 1 ≤ last_page)
    (prior : List ApartmentTuple) (data : List Nat → List ApartmentTuple) :
    ∃ r, scrape_and_save last_page (some prior) data = Except.ok r ∧
      r.batches.flatten = List.range' 1 last_page ∧
      ∀ b ∈ r.batches, b.length ≤ 40 ∧ b ≠ [] := by
  refine ⟨_, scrape_and_save_ok last_page prior data, ?_, ?_⟩
  · exact batch_loop_fuel_join _ _ (le_refl _)
  · intro b hb
    exact batch_loop_fuel_mem _ _ (le_refl _) b hb

/-- Witness for c1_batch_partition at lastPage = 50: 1 ≤ 50 and the run
partitions the 50 pages into a batch of 40 followed by a batch of 10. -/
theorem c1_batch_partition_witness :
    (1 ≤ 50) ∧
    ∃ r, scrape_and_save 50 (some []) (fun _ => []) = Except.ok r ∧
      r.batches.flatten = List.range' 1 50 ∧
      ∀ b ∈ r.batches, b.length ≤ 40 ∧ b ≠ [] :=
  ⟨by decide, c1_batch_partition 50 (by decide) [] (fun _ => [])⟩

/-- C7: a run against a missing table fails at the DROP TABLE statement with
an OperationalError, before the loop runs and before any row is written;
and a run against an existing table, whatever rows it held, ends with the
table holding exactly the rows extracted in this run — every run is a full
replace, never a merge. -/
theorem c7_drop_and_recreate (last_page : Nat)
    (data : List Nat → List ApartmentTuple) :
    scrape_and_save last_page none data =
      Except.error PyError.operationalError ∧
    ∀ prior : List ApartmentTuple, ∃ r,
      scrape_and_save last_page (some prior) data = Except.ok r ∧
      r.table =
        some (((batch_loop (List.range' 1 last_page)).map data).flatten) := by
  constructor
  · rfl
  · intro prior
    exact ⟨_, scrape_and_save_ok last_page prior data, rfl⟩

/-- Modelled from the claimed progress formula: the cumulative value after
the k-th batch as the sum, over the batches completed so far, of
batchPageCount / totalPages * 100, where batchPageCount is the number of
pages of that batch. -/
def spec_progress_reports (total : Nat) (batches : List (List Nat)) :
    List ℚ :=
  (List.range batches.length).map (fun k : Nat =>
    (((batches.take (k + 1)).map
      (fun b => (b.length : ℚ) / (total : ℚ) * 100)).sum))

/-- C8 counterexample: with lastPage = 50 the run processes a batch of 40
pages and then a batch of 10 pages and reports 80 and then 160, while the
claimed per-batch-page-count formula sums to 80 and then 100: at the second
batch the reported 160 differs from the claimed 100, a deviation not
produced by the final partial batch alone but by adding the fixed 40-page
percent for it. -/
theorem c8_progress_counterexample :
    scrape_and_save 50 (some []) (fun _ => []) =
      Except.ok ⟨some [], [80, 160], [List.range' 1 40, List.range' 41 10]⟩ ∧
    spec_progress_reports 50 [List.range' 1 40, List.range' 41 10] =
      [80, 100] ∧
    (160 : ℚ) ≠ 100 := by
  refine ⟨?_, ?_, by norm_num⟩
  · rw [scrape_and_save_ok]
    have hb : batch_loop (List.range' 1 50) =
        [List.range' 1 40, List.range' 41 10] := by decide
    rw [hb]
    simp only [Except.ok.injEq, RunResult.mk.injEq]
    refine ⟨by simp, ?_, trivial⟩
    norm_num [List.range_succ, n_pages_by_iteration]
  · show ((List.range 2).map _) = _
    norm_num [List.range_succ, List.take_succ]

/-- C8 amended: after each completed batch the reported cumulative progress
is the number of completed batches times the fixed increment
n_pages_by_iteration / totalPages * 100, computed once from the full batch
size of 40 pages — the increment for the final partial batch uses 40, not
that batch's page count. -/
theorem c8_progress_fixed_increment (last_page : Nat)
    (prior : List ApartmentTuple) (data : List Nat → List ApartmentTuple) :
    ∃ r, scrape_and_save last_page (some prior) data = Except.ok r ∧
      r.reports = (List.range r.batches.length).map
        (fun k : Nat => ((k : ℚ) + 1) *
          ((n_pages_by_iteration : ℚ) / (last_page : ℚ) * 100)) :=
  ⟨_, scrape_and_save_ok last_page prior data, rfl⟩

end Scraper
